import Mathlib

/-!
Verification of the view-model assembly, filtering, export, trend-join,
color-mapping and caching logic of the PCI DSS compliance dashboard
(`src/app/main.py`), shallowly embedded in Lean 4.

Data records follow the schemas of the data model: `severity` ranges over
critical/high/medium/low, finding `status` over open/remediated, control
`status` over pass/fail/unknown; ids, titles, dates and other free-form
fields are strings, and compliance scores are rationals.
-/

namespace PciDash

/-! ## Data model -/

/-- Severity level of a finding: `enum{critical, high, medium, low}`. -/
inductive Severity where
  | critical
  | high
  | medium
  | low
deriving DecidableEq, Repr

/-- Status of a finding: `enum{open, remediated}` (`open` is a Lean keyword,
hence the primed constructor name; it renders as the string "open"). -/
inductive FindingStatus where
  | open'
  | remediated
deriving DecidableEq, Repr

/-- Status of a control: `enum{pass, fail, unknown}`. -/
inductive ControlState where
  | pass
  | fail
  | unknown
deriving DecidableEq, Repr

/-- A PCI DSS requirement record, as loaded from `pci_requirements.yaml`. -/
structure Requirement where
  id : String
  name : String
  description : String
  lab_source : String
  aws_service : String
deriving DecidableEq, Repr

/-- One control-status row from `simulated_control_status.json`. -/
structure ControlStatus where
  requirement_id : String
  status : ControlState
  details : String
  finding_count : Nat
  last_checked : String
  evidence_location : String
deriving DecidableEq, Repr

/-- One finding record from `simulated_findings.json`. -/
structure Finding where
  id : String
  requirement_id : String
  severity : Severity
  status : FindingStatus
  title : String
  description : String
  resource_id : String
  remediation : String
  detected_at : String
deriving DecidableEq, Repr

/-- The `summary` object of the control-status snapshot. -/
structure Summary where
  compliance_score : ℚ
  passing : Nat
  failing : Nat
deriving DecidableEq, Repr

/-- The control-status snapshot document: `snapshot_date`, `summary`,
`controls`. -/
structure Snapshot where
  snapshot_date : String
  summary : Summary
  controls : List ControlStatus
deriving DecidableEq, Repr

/-- One trend point from `simulated_trend.json` (`trend_data` list). -/
structure TrendPoint where
  date : String
  compliance_score : ℚ
  passing : Nat
  failing : Nat
deriving DecidableEq, Repr

/-- One event from `simulated_trend.json` (`events` list). -/
structure Event where
  date : String
  event : String
deriving DecidableEq, Repr

/-- The trend-data document: `trend_data` and `events`. -/
structure TrendData where
  trend_data : List TrendPoint
  events : List Event
deriving DecidableEq, Repr

/-- String rendering of a severity, as it appears in the JSON fixtures and in
the CSV export. -/
def Severity.render : Severity → String
  | .critical => "critical"
  | .high => "high"
  | .medium => "medium"
  | .low => "low"

/-- String rendering of a finding status, as it appears in the JSON fixtures
and in the CSV export. -/
def FindingStatus.render : FindingStatus → String
  | .open' => "open"
  | .remediated => "remediated"

/-! ## View-model assembler (main.py lines 55-81, 202-227) -/

/-- Source `get_requirement_name` (main.py lines 55-60): linear scan over the
requirement catalog; the first requirement whose `id` matches gives its
`name`; falls through to the raw id when the scan is exhausted. -/
def get_requirement_name (req_id : String) (requirements : List Requirement) : String :=
  match requirements with
  | [] => req_id
  | req :: rest => if req.id = req_id then req.name else get_requirement_name req_id rest

/-- Python `str.lower()`: per-character lowercasing, written over the
underlying character list. -/
def pyLower (s : String) : String := ⟨s.data.map Char.toLower⟩

/-- Python `dict.get(key, default)` over an association list built in source
order, as used by `severity_color` and `status_color`. -/
def dictGet (pairs : List (String × String)) (key dflt : String) : String :=
  match pairs.lookup key with
  | some v => v
  | none => dflt

/-- Source `severity_color` (main.py lines 63-71): dictionary lookup on
`severity.lower()` with neutral default `#6c757d`. -/
def severity_color (severity : String) : String :=
  dictGet [("critical", "#dc3545"), ("high", "#fd7e14"),
           ("medium", "#ffc107"), ("low", "#28a745")] (pyLower severity) "#6c757d"

/-- Source `status_color` (main.py lines 74-81): dictionary lookup on
`status.lower()` with neutral default `#6c757d`. -/
def status_color (status : String) : String :=
  dictGet [("pass", "#28a745"), ("fail", "#dc3545"),
           ("unknown", "#6c757d")] (pyLower status) "#6c757d"

/-- The joined record for the Requirement Details page: the requirement, its
control row, and the findings whose `requirement_id` matches. -/
structure RequirementDetail where
  req_info : Requirement
  control : ControlStatus
  req_findings : List Finding
deriving DecidableEq, Repr

/-- Operation `buildRequirementDetail` (main.py lines 202-227): `control` and
`req_info` are Python `next(..., None)` searches; the page body renders only
under `if control and req_info`, and `req_findings` is the comprehension
`[f for f in findings if f["requirement_id"] == selected_req]`. -/
def buildRequirementDetail (selected_req : String) (requirements : List Requirement)
    (controls : List ControlStatus) (findings : List Finding) : Option RequirementDetail :=
  match controls.find? (fun c => c.requirement_id == selected_req),
        requirements.find? (fun r => r.id == selected_req) with
  | some control, some req_info =>
      some ⟨req_info, control, findings.filter (fun f => f.requirement_id == selected_req)⟩
  | _, _ => none

/-- Executive-summary card icon (main.py line 159):
`icon = "✅" if status == "pass" else "❌"`. -/
def cardIcon (status : ControlState) : String :=
  if status = .pass then "✅" else "❌"

/-- Executive-summary card color name (main.py line 160):
`color = "green" if status == "pass" else "red"`. -/
def cardColor (status : ControlState) : String :=
  if status = .pass then "green" else "red"

/-- Executive-summary card background (main.py line 163):
`'#d4edda' if status == 'pass' else '#f8d7da'`. -/
def cardBackground (status : ControlState) : String :=
  if status = .pass then "#d4edda" else "#f8d7da"

/-! ## Executive-summary metrics (main.py lines 113-147) -/

/-- Source `open_findings` (main.py line 139):
`len([f for f in findings if f["status"] == "open"])`. -/
def open_findings (findings : List Finding) : Nat :=
  (findings.filter (fun f => f.status == .open')).length

/-- Source `critical_findings` (main.py line 140): open findings whose severity is
critical. -/
def critical_findings (findings : List Finding) : Nat :=
  (findings.filter (fun f => f.status == .open' && f.severity == .critical)).length

/-- The Compliance Score metric (main.py lines 115-122): value echoed from
`summary["compliance_score"]`; delta `+16.7%` only when the score exceeds 33. -/
def scoreMetric (summary : Summary) : ℚ × Option String :=
  (summary.compliance_score,
   if summary.compliance_score > 33 then some "+16.7%" else none)

/-- The Requirements Passing metric (main.py lines 124-129): value echoed from
`summary["passing"]`. -/
def passingMetric (summary : Summary) : Nat × Option String :=
  (summary.passing, if summary.passing > 2 then some "+1" else none)

/-- The Requirements Failing metric (main.py lines 131-137): value echoed from
`summary["failing"]`. -/
def failingMetric (summary : Summary) : Nat × Option String :=
  (summary.failing, if summary.failing < 4 then some "-1" else none)

/-- The Open Findings metric (main.py lines 141-147): value recomputed from
the findings list; delta shows the critical count when it is positive. -/
def openFindingsMetric (findings : List Finding) : Nat × Option String :=
  (open_findings findings,
   if critical_findings findings > 0
   then some (toString (critical_findings findings) ++ " critical") else none)

/-! ## Findings filter engine and export (main.py lines 275-309) -/

/-- Source `filtered` (main.py lines 275-280): the list comprehension keeping each
finding whose severity, status and requirement id are members of the three
selected filter lists, in input order. -/
def filterFindings (findings : List Finding) (severity_filter : List Severity)
    (status_filter : List FindingStatus) (req_filter : List String) : List Finding :=
  findings.filter (fun f =>
    severity_filter.contains f.severity
      && status_filter.contains f.status
      && req_filter.contains f.requirement_id)

/-- The CSV header row (main.py line 289): the renamed dataframe columns. -/
def csvHeader : String := "ID,Severity,Status,Requirement,Title,Resource,Detected"

/-- One CSV data row, with the column order fixed at main.py line 288:
`["id", "severity", "status", "requirement_id", "title", "resource_id",
"detected_at"]`. -/
def findingRow (f : Finding) : String :=
  String.intercalate ","
    [f.id, f.severity.render, f.status.render, f.requirement_id,
     f.title, f.resource_id, f.detected_at]

/-- The lines of `df.to_csv(index=False)` (main.py lines 286-303): header row
followed by one data row per filtered finding, in order. -/
def toTabularExport (filteredFindings : List Finding) : List String :=
  csvHeader :: filteredFindings.map findingRow

/-! ## Trend analyzer (main.py lines 334-350) -/

/-- One chart marker produced by `fig.add_annotation` for an event: x is the
event date, y the compliance score it is pinned to, text the event label. -/
structure EventNote where
  x : String
  y : ℚ
  text : String
deriving DecidableEq, Repr

/-- Source `score_at_date` (main.py line 337): the compliance scores of all trend
rows whose date equals the event date, in row order
(`df_trend[df_trend["date"] == event_date]["compliance_score"].values`). -/
def score_at_date (df_trend : List TrendPoint) (event_date : String) : List ℚ :=
  (df_trend.filter (fun p => p.date == event_date)).map (·.compliance_score)

/-- The annotations one event contributes (main.py lines 336-350): none when
`score_at_date` is empty, otherwise a single marker at its first score. -/
def attachEvent (df_trend : List TrendPoint) (e : Event) : List EventNote :=
  match score_at_date df_trend e.date with
  | [] => []
  | y :: _ => [⟨e.date, y, e.event⟩]

/-- The full annotation pass (main.py lines 335-350): the loop over
`trend_data["events"]`, concatenating each event's contribution. -/
def attachEvents (df_trend : List TrendPoint) (events : List Event) : List EventNote :=
  events.flatMap (attachEvent df_trend)

/-! ## Data loader (main.py lines 27-52)

Each loader is wrapped in Streamlit's `@st.cache_data` decorator, whose
documented behavior is process-lifetime memoization: the first call runs the
body (which reads and parses one fixture file) and caches the result; later
calls return the cached value without re-running the body. The cache is
modelled explicitly as a write-once cell plus a count of file reads, and each
loader is parameterized by the parsed content of its fixture file (the file
system is outside the program). -/

/-- The memoization cell `@st.cache_data` keeps for one function: the cached
value, if any, and how many times the underlying file has been read. -/
structure CacheState (α : Type) where
  cache : Option α
  reads : Nat
deriving Repr

/-- One call through `@st.cache_data`: a cache hit returns the cached value
and leaves the state untouched; a miss runs the body, reads the file once,
and stores the result. -/
def cachedCall {α : Type} (body : Unit → α) (s : CacheState α) : α × CacheState α :=
  match s.cache with
  | some v => (v, s)
  | none => (body (), ⟨some (body ()), s.reads + 1⟩)

/-- Source `load_requirements` (main.py lines 27-31) under `@st.cache_data`,
parameterized by the parsed `requirements` list of `pci_requirements.yaml`. -/
def load_requirements (fileData : List Requirement) :
    CacheState (List Requirement) → List Requirement × CacheState (List Requirement) :=
  cachedCall (fun _ => fileData)

/-- Source `load_control_status` (main.py lines 34-38) under `@st.cache_data`,
parameterized by the parsed content of `simulated_control_status.json`. -/
def load_control_status (fileData : Snapshot) :
    CacheState Snapshot → Snapshot × CacheState Snapshot :=
  cachedCall (fun _ => fileData)

/-- Source `load_findings` (main.py lines 41-45) under `@st.cache_data`,
parameterized by the parsed `findings` list of `simulated_findings.json`. -/
def load_findings (fileData : List Finding) :
    CacheState (List Finding) → List Finding × CacheState (List Finding) :=
  cachedCall (fun _ => fileData)

/-- Source `load_trend_data` (main.py lines 48-52) under `@st.cache_data`,
parameterized by the parsed content of `simulated_trend.json`. -/
def load_trend_data (fileData : TrendData) :
    CacheState TrendData → TrendData × CacheState TrendData :=
  cachedCall (fun _ => fileData)

/-! ## Concrete fixture-shaped sample data, used by witnesses -/

/-- A sample requirement in the shape of the catalog entries. -/
def sampleRequirement : Requirement :=
  ⟨"req_1", "Install and Maintain Network Security Controls",
   "Firewall and router configuration standards", "lab01", "VPC"⟩

/-- A one-entry requirement catalog. -/
def sampleReqs : List Requirement := [sampleRequirement]

/-- A one-row control-status list. -/
def sampleControls : List ControlStatus :=
  [⟨"req_1", .fail, "2 open findings", 2, "2024-01-16T08:00:00Z", "s3://evidence/req_1"⟩]

/-- Sample finding: open, critical. -/
def sf1 : Finding :=
  ⟨"fnd_001", "req_1", .critical, .open', "Public S3 bucket",
   "Bucket allows public read", "bucket-1", "Block public access", "2024-01-10"⟩

/-- Sample finding: open, medium. -/
def sf2 : Finding :=
  ⟨"fnd_002", "req_1", .medium, .open', "Weak TLS policy",
   "ELB accepts TLS 1.0", "elb-1", "Raise minimum TLS version", "2024-01-11"⟩

/-- Sample finding: remediated, low. -/
def sf3 : Finding :=
  ⟨"fnd_003", "req_1", .low, .remediated, "Unused security group",
   "Security group unattached", "sg-1", "Delete the group", "2024-01-02"⟩

/-- A findings collection with 2 open and 1 remediated finding. -/
def sampleFindings : List Finding := [sf1, sf2, sf3]

/-- The full severity universe offered by the severity multiselect. -/
def allSeverities : List Severity := [.critical, .high, .medium, .low]

/-- A short trend series with dates 2024-01-01, 2024-01-05 and 2024-01-16. -/
def sampleTrend : List TrendPoint :=
  [⟨"2024-01-01", 33, 2, 4⟩, ⟨"2024-01-05", 50, 3, 3⟩, ⟨"2024-01-16", 66, 4, 2⟩]

/-- An event dated 2024-01-05, matching a trend point. -/
def eventIn : Event := ⟨"2024-01-05", "Remediated firewall rules"⟩

/-- An event dated 2024-01-20, outside the trend range. -/
def eventOut : Event := ⟨"2024-01-20", "Scheduled audit"⟩

/-! ## Helper lemmas -/

/-- Membership characterization of the findings filter, shared by the filter
and export theorems. -/
lemma mem_filterFindings {f : Finding} {findings : List Finding}
    {severity_filter : List Severity} {status_filter : List FindingStatus}
    {req_filter : List String} :
    f ∈ filterFindings findings severity_filter status_filter req_filter ↔
      f ∈ findings ∧ f.severity ∈ severity_filter ∧ f.status ∈ status_filter
        ∧ f.requirement_id ∈ req_filter := by
  simp only [filterFindings, List.mem_filter, Bool.and_eq_true, List.elem_iff, and_assoc]

/-- Python-iteration order: `find?` returns the head of the filtered list. -/
lemma find?_eq_head?_filter {α : Type} (p : α → Bool) :
    ∀ l : List α, l.find? p = (l.filter p).head?
  | [] => rfl
  | a :: l => by
    cases h : p a
    · rw [List.find?_cons_of_neg _ (by simp [h]), List.filter_cons_of_neg (by simp [h])]
      exact find?_eq_head?_filter p l
    · rw [List.find?_cons_of_pos _ h, List.filter_cons_of_pos h]
      rfl

/-! ## Claim theorems -/

/-- C1: `filterFindings` returns exactly the findings whose severity, status
and requirement id lie in the three selection sets, preserving the input's
relative order (sublist), and any empty selection set yields the empty
result. -/
theorem filterFindings_spec (findings : List Finding) (severity_filter : List Severity)
    (status_filter : List FindingStatus) (req_filter : List String) :
    (filterFindings findings severity_filter status_filter req_filter).Sublist findings
    ∧ (∀ f, f ∈ filterFindings findings severity_filter status_filter req_filter ↔
        f ∈ findings ∧ f.severity ∈ severity_filter ∧ f.status ∈ status_filter
          ∧ f.requirement_id ∈ req_filter)
    ∧ (severity_filter = [] →
        filterFindings findings severity_filter status_filter req_filter = [])
    ∧ (status_filter = [] →
        filterFindings findings severity_filter status_filter req_filter = [])
    ∧ (req_filter = [] →
        filterFindings findings severity_filter status_filter req_filter = []) := by
  refine ⟨List.filter_sublist findings, fun f => mem_filterFindings, ?_, ?_, ?_⟩ <;>
    intro h <;> subst h <;> rw [List.eq_nil_iff_forall_not_mem] <;> intro f hf <;>
    rw [mem_filterFindings] at hf <;> simp at hf

/-- Witness for C1: the empty severity set empties the result, and an open
critical finding with selected requirement id passes the default filter. -/
theorem filterFindings_spec_witness :
    filterFindings sampleFindings [] [FindingStatus.open'] ["req_1"] = []
    ∧ sf1 ∈ filterFindings sampleFindings allSeverities [FindingStatus.open'] ["req_1"] :=
  ⟨(filterFindings_spec sampleFindings [] [FindingStatus.open'] ["req_1"]).2.2.1 rfl,
   ((filterFindings_spec sampleFindings allSeverities [FindingStatus.open'] ["req_1"]).2.1
      sf1).mpr (by decide)⟩

/-- C2: the export of a filtered list of length n has n+1 lines, the first
being the fixed header, and every data row is the row of some finding that
passed the current filter — excluded findings never appear. -/
theorem toTabularExport_spec (findings : List Finding) (severity_filter : List Severity)
    (status_filter : List FindingStatus) (req_filter : List String) (fs : List Finding)
    (hfs : fs = filterFindings findings severity_filter status_filter req_filter) :
    (toTabularExport fs).length = fs.length + 1
    ∧ (toTabularExport fs).head? = some csvHeader
    ∧ (toTabularExport fs).tail = fs.map findingRow
    ∧ ∀ line ∈ (toTabularExport fs).tail,
        ∃ f, f ∈ findings ∧ f.severity ∈ severity_filter ∧ f.status ∈ status_filter
          ∧ f.requirement_id ∈ req_filter ∧ line = findingRow f := by
  subst hfs
  refine ⟨by simp [toTabularExport], rfl, rfl, ?_⟩
  intro line hline
  simp only [toTabularExport, List.tail_cons, List.mem_map] at hline
  obtain ⟨f, hf, rfl⟩ := hline
  rw [mem_filterFindings] at hf
  exact ⟨f, hf.1, hf.2.1, hf.2.2.1, hf.2.2.2, rfl⟩

/-- Witness for C2: the sample collection filtered to open findings (2 of 3)
exports as exactly 3 lines headed by the fixed header row. -/
theorem toTabularExport_spec_witness :
    (toTabularExport (filterFindings sampleFindings allSeverities
      [FindingStatus.open'] ["req_1"])).length = 3
    ∧ (toTabularExport (filterFindings sampleFindings allSeverities
        [FindingStatus.open'] ["req_1"])).head? = some csvHeader := by
  have h := toTabularExport_spec sampleFindings allSeverities [FindingStatus.open']
    ["req_1"] _ rfl
  exact ⟨h.1.trans (by decide), h.2.1⟩

/-- C8: filtering by the full severity universe, the full status universe and
the requirement ids occurring in the findings returns the list unchanged. -/
theorem filterFindings_full_universe (findings : List Finding) :
    filterFindings findings [Severity.critical, .high, .medium, .low]
      [FindingStatus.open', .remediated]
      (findings.map (fun f => f.requirement_id)) = findings := by
  apply List.filter_eq_self.mpr
  intro f hf
  simp only [Bool.and_eq_true, List.elem_iff]
  refine ⟨⟨?_, ?_⟩, ?_⟩
  · cases hs : f.severity <;> simp
  · cases hs : f.status <;> simp
  · exact List.mem_map_of_mem _ hf

/-- C3: an event whose date matches no trend point contributes no chart
marker; when a point with exactly the event's date is found, the event
contributes exactly one marker pinned to that point's compliance score, and
this per-event contribution is exactly what the full annotation pass over the
event list appends for it. -/
theorem attachEvent_spec (df_trend : List TrendPoint) (e : Event) :
    ((∀ p ∈ df_trend, p.date ≠ e.date) → attachEvent df_trend e = [])
    ∧ ((∃ p ∈ df_trend, p.date = e.date) → (attachEvent df_trend e).length = 1)
    ∧ (∀ p, df_trend.find? (fun q => q.date == e.date) = some p →
        attachEvent df_trend e = [⟨e.date, p.compliance_score, e.event⟩])
    ∧ (∀ events : List Event, attachEvents df_trend (events ++ [e])
        = attachEvents df_trend events ++ attachEvent df_trend e) := by
  refine ⟨?_, ?_, ?_, ?_⟩
  · intro h
    have hnil : df_trend.filter (fun p => p.date == e.date) = [] := by
      rw [List.filter_eq_nil_iff]
      intro p hp
      simpa using h p hp
    simp [attachEvent, score_at_date, hnil]
  · rintro ⟨p, hp, hd⟩
    cases hfe : df_trend.filter (fun q => q.date == e.date) with
    | nil =>
      rw [List.filter_eq_nil_iff] at hfe
      exact absurd (by simp [hd]) (hfe p hp)
    | cons y ys => simp [attachEvent, score_at_date, hfe]
  · intro p hfind
    rw [find?_eq_head?_filter] at hfind
    cases hfe : df_trend.filter (fun q => q.date == e.date) with
    | nil => rw [hfe] at hfind; cases hfind
    | cons y ys =>
      rw [hfe, List.head?_cons, Option.some_inj] at hfind
      subst hfind
      simp [attachEvent, score_at_date, hfe]
  · intro events
    simp [attachEvents]

/-- Witness for C3: over the sample trend, the out-of-range event of
2024-01-20 contributes nothing and the 2024-01-05 event contributes one
marker at that day's score of 50. -/
theorem attachEvent_spec_witness :
    attachEvent sampleTrend eventOut = []
    ∧ attachEvent sampleTrend eventIn = [⟨"2024-01-05", 50, "Remediated firewall rules"⟩] :=
  ⟨(attachEvent_spec sampleTrend eventOut).1 (by decide),
   (attachEvent_spec sampleTrend eventIn).2.2.1 ⟨"2024-01-05", 50, 3, 3⟩ (by decide)⟩

/-- C4: the detail join yields the empty/placeholder state (none) exactly
when the id has no matching requirement or no matching control row, and any
returned record joins the matching requirement, its control row, and exactly
the findings with that requirement id. -/
theorem buildRequirementDetail_spec (rid : String) (reqs : List Requirement)
    (controls : List ControlStatus) (findings : List Finding) :
    (buildRequirementDetail rid reqs controls findings = none ↔
      (∀ r ∈ reqs, r.id ≠ rid) ∨ (∀ c ∈ controls, c.requirement_id ≠ rid))
    ∧ ∀ d, buildRequirementDetail rid reqs controls findings = some d →
        d.req_info ∈ reqs ∧ d.req_info.id = rid
        ∧ d.control ∈ controls ∧ d.control.requirement_id = rid
        ∧ ∀ f, f ∈ d.req_findings ↔ f ∈ findings ∧ f.requirement_id = rid := by
  cases hc : controls.find? (fun c => c.requirement_id == rid) with
  | none =>
    have hcn := List.find?_eq_none.mp hc
    constructor
    · constructor
      · intro _
        exact Or.inr (fun c hcm => by simpa using hcn c hcm)
      · intro _
        simp [buildRequirementDetail, hc]
    · intro d hd
      simp [buildRequirementDetail, hc] at hd
  | some c =>
    have hcm := List.mem_of_find?_eq_some hc
    have hceq : c.requirement_id = rid := by simpa using List.find?_some hc
    cases hr : reqs.find? (fun r => r.id == rid) with
    | none =>
      have hrn := List.find?_eq_none.mp hr
      constructor
      · constructor
        · intro _
          exact Or.inl (fun r hrm => by simpa using hrn r hrm)
        · intro _
          simp [buildRequirementDetail, hc, hr]
      · intro d hd
        simp [buildRequirementDetail, hc, hr] at hd
    | some r =>
      have hrm := List.mem_of_find?_eq_some hr
      have hreq : r.id = rid := by simpa using List.find?_some hr
      constructor
      · constructor
        · intro h
          simp [buildRequirementDetail, hc, hr] at h
        · rintro (h | h)
          · exact absurd hreq (h r hrm)
          · exact absurd hceq (h c hcm)
      · intro d hd
        simp only [buildRequirementDetail, hc, hr, Option.some_inj] at hd
        subst hd
        refine ⟨hrm, hreq, hcm, hceq, ?_⟩
        intro f
        simp [List.mem_filter]

/-- Witness for C4: the unknown id req_99 maps to the placeholder state over
the sample catalog and control list. -/
theorem buildRequirementDetail_spec_witness :
    buildRequirementDetail "req_99" sampleReqs sampleControls sampleFindings = none :=
  (buildRequirementDetail_spec "req_99" sampleReqs sampleControls sampleFindings).1.mpr
    (Or.inl (by decide))

/-- C5: the name lookup returns the first matching requirement's name and
falls back to echoing the id itself when nothing matches; being a total
function into String it never returns a null name. -/
theorem get_requirement_name_spec (req_id : String) (requirements : List Requirement) :
    ((∀ r ∈ requirements, r.id ≠ req_id) → get_requirement_name req_id requirements = req_id)
    ∧ ∀ r, requirements.find? (fun q => q.id == req_id) = some r →
        get_requirement_name req_id requirements = r.name := by
  induction requirements with
  | nil =>
    refine ⟨fun _ => rfl, fun r h => ?_⟩
    simp at h
  | cons q rest ih =>
    constructor
    · intro h
      have hq : q.id ≠ req_id := h q (List.mem_cons_self q rest)
      simp only [get_requirement_name, if_neg hq]
      exact ih.1 (fun r hr => h r (List.mem_cons_of_mem _ hr))
    · intro r hfind
      by_cases hq : q.id = req_id
      · rw [List.find?_cons_of_pos _ (by simp [hq]), Option.some_inj] at hfind
        subst hfind
        simp only [get_requirement_name, if_pos hq]
      · rw [List.find?_cons_of_neg _ (by simp [hq])] at hfind
        simp only [get_requirement_name, if_neg hq]
        exact ih.2 r hfind

/-- Witness for C5: req_99 has no entry in the sample catalog and is echoed
back unchanged. -/
theorem get_requirement_name_spec_witness :
    get_requirement_name "req_99" sampleReqs = "req_99" :=
  (get_requirement_name_spec "req_99" sampleReqs).1 (by decide)

/-- C6: both color maps are total String functions (so the fallback can never
throw): each recognized category, matched case-insensitively, maps to its one
fixed color, and every unrecognized value maps to the neutral default. -/
theorem color_maps_total (s : String) :
    (pyLower s = "critical" → severity_color s = "#dc3545")
    ∧ (pyLower s = "high" → severity_color s = "#fd7e14")
    ∧ (pyLower s = "medium" → severity_color s = "#ffc107")
    ∧ (pyLower s = "low" → severity_color s = "#28a745")
    ∧ (pyLower s ∉ ["critical", "high", "medium", "low"] → severity_color s = "#6c757d")
    ∧ (pyLower s = "pass" → status_color s = "#28a745")
    ∧ (pyLower s = "fail" → status_color s = "#dc3545")
    ∧ (pyLower s = "unknown" → status_color s = "#6c757d")
    ∧ (pyLower s ∉ ["pass", "fail", "unknown"] → status_color s = "#6c757d") := by
  refine ⟨fun h => by simp only [severity_color, dictGet, h]; decide,
          fun h => by simp only [severity_color, dictGet, h]; decide,
          fun h => by simp only [severity_color, dictGet, h]; decide,
          fun h => by simp only [severity_color, dictGet, h]; decide,
          ?_,
          fun h => by simp only [status_color, dictGet, h]; decide,
          fun h => by simp only [status_color, dictGet, h]; decide,
          fun h => by simp only [status_color, dictGet, h]; decide,
          ?_⟩
  · intro h
    simp only [List.mem_cons, List.not_mem_nil, or_false, not_or] at h
    obtain ⟨h1, h2, h3, h4⟩ := h
    have b1 : (pyLower s == "critical") = false := beq_eq_false_iff_ne.mpr h1
    have b2 : (pyLower s == "high") = false := beq_eq_false_iff_ne.mpr h2
    have b3 : (pyLower s == "medium") = false := beq_eq_false_iff_ne.mpr h3
    have b4 : (pyLower s == "low") = false := beq_eq_false_iff_ne.mpr h4
    simp [severity_color, dictGet, List.lookup, b1, b2, b3, b4]
  · intro h
    simp only [List.mem_cons, List.not_mem_nil, or_false, not_or] at h
    obtain ⟨h1, h2, h3⟩ := h
    have b1 : (pyLower s == "pass") = false := beq_eq_false_iff_ne.mpr h1
    have b2 : (pyLower s == "fail") = false := beq_eq_false_iff_ne.mpr h2
    have b3 : (pyLower s == "unknown") = false := beq_eq_false_iff_ne.mpr h3
    simp [status_color, dictGet, List.lookup, b1, b2, b3]

/-- Witness for C6: mixed-case CRITICAL maps to the severity red, and an
unrecognized status string maps to the neutral default. -/
theorem color_maps_total_witness :
    severity_color "CRITICAL" = "#dc3545" ∧ status_color "Decommissioned" = "#6c757d" :=
  ⟨(color_maps_total "CRITICAL").1 (by decide),
   (color_maps_total "Decommissioned").2.2.2.2.2.2.2.2 (by decide)⟩

/-- C7: each of the four loaders is memoized for the process lifetime: a
second call returns the value of the first call and leaves the cache state,
in particular its count of file reads, unchanged. -/
theorem load_memoized (rs : List Requirement) (snap : Snapshot) (fs : List Finding)
    (td : TrendData) (s1 : CacheState (List Requirement)) (s2 : CacheState Snapshot)
    (s3 : CacheState (List Finding)) (s4 : CacheState TrendData) :
    (load_requirements rs (load_requirements rs s1).2
      = ((load_requirements rs s1).1, (load_requirements rs s1).2))
    ∧ (load_control_status snap (load_control_status snap s2).2
        = ((load_control_status snap s2).1, (load_control_status snap s2).2))
    ∧ (load_findings fs (load_findings fs s3).2
        = ((load_findings fs s3).1, (load_findings fs s3).2))
    ∧ (load_trend_data td (load_trend_data td s4).2
        = ((load_trend_data td s4).1, (load_trend_data td s4).2)) := by
  refine ⟨?_, ?_, ?_, ?_⟩
  · rcases s1 with ⟨_ | v, n⟩ <;> simp [load_requirements, cachedCall]
  · rcases s2 with ⟨_ | v, n⟩ <;> simp [load_control_status, cachedCall]
  · rcases s3 with ⟨_ | v, n⟩ <;> simp [load_findings, cachedCall]
  · rcases s4 with ⟨_ | v, n⟩ <;> simp [load_trend_data, cachedCall]

/-- C9: on the Executive Summary cards, the unknown control state renders with
the same fail icon, color and background as the fail state, and the pass
icon, color and background appear exactly for the pass state. -/
theorem card_status_rendering :
    cardIcon .unknown = cardIcon .fail
    ∧ cardColor .unknown = cardColor .fail
    ∧ cardBackground .unknown = cardBackground .fail
    ∧ (∀ s : ControlState, (cardIcon s = "✅" ↔ s = .pass))
    ∧ (∀ s : ControlState, (cardColor s = "green" ↔ s = .pass))
    ∧ (∀ s : ControlState, (cardBackground s = "#d4edda" ↔ s = .pass)) := by
  refine ⟨rfl, rfl, rfl, ?_, ?_, ?_⟩ <;> intro s <;> cases s <;>
    simp [cardIcon, cardColor, cardBackground]

/-- C10: the Open Findings metric is recomputed from the findings list as the
count of findings with status open, its critical delta is shown exactly when
an open critical finding exists, and the score, passing and failing metrics
echo the snapshot summary verbatim. -/
theorem execSummary_metrics_spec (summary : Summary) (findings : List Finding) :
    (openFindingsMetric findings).1
      = findings.countP (fun f => f.status == FindingStatus.open')
    ∧ ((openFindingsMetric findings).2.isSome = true ↔
        0 < findings.countP
          (fun f => f.status == FindingStatus.open' && f.severity == Severity.critical))
    ∧ (scoreMetric summary).1 = summary.compliance_score
    ∧ (passingMetric summary).1 = summary.passing
    ∧ (failingMetric summary).1 = summary.failing := by
  refine ⟨?_, ?_, rfl, rfl, rfl⟩
  · simp [openFindingsMetric, open_findings, List.countP_eq_length_filter]
  · rw [show (findings.countP
          (fun f => f.status == FindingStatus.open' && f.severity == Severity.critical))
        = critical_findings findings by
      simp [critical_findings, List.countP_eq_length_filter]]
    by_cases h : critical_findings findings > 0
    · simp [openFindingsMetric, h]
    · simp [openFindingsMetric, h]

end PciDash
